import Mathlib

/-!
Verification of the numeric logic of the AP_Physics_2_Manim repository.

The repository's only original numeric functions are:
* `pseudo_planck` in `blackbody_explained.py`, a simplified blackbody
  intensity curve (an asymmetric two-sided Gaussian peaking at the
  Wien's-law wavelength, scaled by `(T/1000)^4`), accepting a scalar or
  array wavelength input; and
* `get_bulb_color` in `problems.py`, a piecewise-linear colour ramp over
  the `BULB_GLOW_COLORS` table.

Both are embedded below over `ℝ` (floats in the source become reals;
numpy arrays become lists), and the spec's claims about them are proved.
-/

namespace Blackbody

/-- Wien's displacement constant `B_Wien = 2.898e-3` (m·K) from
`blackbody_explained.py`. -/
noncomputable def B_Wien : ℝ := 2.898e-3

/-- The guard constant `EPSILON = 1e-9` from `blackbody_explained.py`. -/
noncomputable def EPSILON : ℝ := 1e-9

/-- `peak_nm = (B_Wien / (T_kelvin + EPSILON)) * 1e9`, the peak wavelength in
nanometres computed inside `pseudo_planck` (lines 38-39 of the source). -/
noncomputable def peak_nm (T_kelvin : ℝ) : ℝ := B_Wien / (T_kelvin + EPSILON) * 1e9

/-- `left_width = peak_nm * 0.3 + EPSILON` (line 41 of the source). -/
noncomputable def left_width (T_kelvin : ℝ) : ℝ := peak_nm T_kelvin * 0.3 + EPSILON

/-- `right_width = peak_nm * 0.6 + EPSILON` (line 42 of the source). -/
noncomputable def right_width (T_kelvin : ℝ) : ℝ := peak_nm T_kelvin * 0.6 + EPSILON

/-- Scalar branch of `pseudo_planck` from `blackbody_explained.py`:
guard `T_kelvin <= 0` returns `0.0`; otherwise the intensity is the
left Gaussian when `wavelength_nm <= peak_nm`, the right Gaussian when
`wavelength_nm > peak_nm` (the `elif`), and the initial `0.0` in the
unreachable remaining case; finally it is multiplied by
`(T_kelvin / 1000) ** 4`. -/
noncomputable def pseudo_planck (wavelength_nm T_kelvin : ℝ) : ℝ :=
  if T_kelvin ≤ 0 then 0
  else
    (if wavelength_nm ≤ peak_nm T_kelvin then
      Real.exp (-((wavelength_nm - peak_nm T_kelvin) ^ 2) /
        (2 * left_width T_kelvin ^ 2))
    else if peak_nm T_kelvin < wavelength_nm then
      Real.exp (-((wavelength_nm - peak_nm T_kelvin) ^ 2) /
        (2 * right_width T_kelvin ^ 2))
    else 0) * (T_kelvin / 1000) ^ 4

/-- Array branch of `pseudo_planck`: on `T_kelvin <= 0` it returns
`np.zeros_like(wavelength_nm)`; otherwise the masked assignments put the
left Gaussian at indices with `wavelength_nm <= peak_nm` and the right
Gaussian at indices with `wavelength_nm > peak_nm` (the two masks are
exhaustive and disjoint), then the whole array is scaled by
`(T_kelvin / 1000) ** 4`. -/
noncomputable def pseudo_planck_list (wavelength_nm : List ℝ) (T_kelvin : ℝ) :
    List ℝ :=
  if T_kelvin ≤ 0 then wavelength_nm.map (fun _ => 0)
  else
    wavelength_nm.map (fun w =>
      (if w ≤ peak_nm T_kelvin then
        Real.exp (-((w - peak_nm T_kelvin) ^ 2) / (2 * left_width T_kelvin ^ 2))
      else
        Real.exp (-((w - peak_nm T_kelvin) ^ 2) / (2 * right_width T_kelvin ^ 2)))
      * (T_kelvin / 1000) ^ 4)

lemma epsilon_pos : (0:ℝ) < EPSILON := by unfold EPSILON; norm_num

lemma temp_eps_pos {T : ℝ} (hT : 0 < T) : 0 < T + EPSILON := by
  have := epsilon_pos; linarith

lemma peak_nm_pos {T : ℝ} (hT : 0 < T) : 0 < peak_nm T := by
  unfold peak_nm
  have h1 : (0:ℝ) < B_Wien := by unfold B_Wien; norm_num
  exact mul_pos (div_pos h1 (temp_eps_pos hT)) (by norm_num)

lemma left_width_pos {T : ℝ} (hT : 0 < T) : 0 < left_width T := by
  unfold left_width
  have := peak_nm_pos hT
  have := epsilon_pos
  nlinarith

lemma right_width_pos {T : ℝ} (hT : 0 < T) : 0 < right_width T := by
  unfold right_width
  have := peak_nm_pos hT
  have := epsilon_pos
  nlinarith

lemma left_width_lt_right_width {T : ℝ} (hT : 0 < T) :
    left_width T < right_width T := by
  unfold left_width right_width
  have := peak_nm_pos hT
  nlinarith

lemma pseudo_planck_left {w T : ℝ} (hT : 0 < T) (hw : w ≤ peak_nm T) :
    pseudo_planck w T =
      Real.exp (-((w - peak_nm T) ^ 2) / (2 * left_width T ^ 2)) *
        (T / 1000) ^ 4 := by
  unfold pseudo_planck
  rw [if_neg (not_le.mpr hT), if_pos hw]

lemma pseudo_planck_right {w T : ℝ} (hT : 0 < T) (hw : peak_nm T < w) :
    pseudo_planck w T =
      Real.exp (-((w - peak_nm T) ^ 2) / (2 * right_width T ^ 2)) *
        (T / 1000) ^ 4 := by
  unfold pseudo_planck
  rw [if_neg (not_le.mpr hT), if_neg (not_le.mpr hw), if_pos hw]

/-- C1: for every temperature `T ≤ 0`, `pseudo_planck` returns zero
everywhere, matching the shape of the wavelength input: `0.0` for a
scalar input, and an all-zero array of the same length for an array
input. -/
theorem pseudo_planck_nonpos_temp (T : ℝ) (hT : T ≤ 0) :
    (∀ w : ℝ, pseudo_planck w T = 0) ∧
    (∀ ws : List ℝ, (pseudo_planck_list ws T).length = ws.length ∧
      ∀ x ∈ pseudo_planck_list ws T, x = 0) := by
  refine ⟨fun w => ?_, fun ws => ⟨?_, fun x hx => ?_⟩⟩
  · unfold pseudo_planck; rw [if_pos hT]
  · unfold pseudo_planck_list; rw [if_pos hT]; simp
  · unfold pseudo_planck_list at hx
    rw [if_pos hT] at hx
    simp only [List.mem_map] at hx
    obtain ⟨a, -, ha⟩ := hx
    exact ha.symm

/-- Witness for C1 at `T = -5`, scalar input `500` and array input
`[200, 300]`. -/
theorem pseudo_planck_nonpos_temp_witness :
    pseudo_planck 500 (-5) = 0 ∧
      (pseudo_planck_list [200, 300] (-5)).length = 2 := by
  have h := pseudo_planck_nonpos_temp (-5) (by norm_num)
  exact ⟨h.1 500, by rw [(h.2 [200, 300]).1]; rfl⟩

lemma pseudo_planck_le_scale {w T : ℝ} (hT : 0 < T) :
    pseudo_planck w T ≤ (T / 1000) ^ 4 := by
  have hsc : (0:ℝ) ≤ (T / 1000) ^ 4 := by positivity
  have hnum : -((w - peak_nm T) ^ 2) ≤ 0 := neg_nonpos.mpr (sq_nonneg _)
  rcases le_or_lt w (peak_nm T) with hw | hw
  · rw [pseudo_planck_left hT hw]
    apply mul_le_of_le_one_left hsc
    rw [Real.exp_le_one_iff]
    have hden : (0:ℝ) < 2 * left_width T ^ 2 := by
      have := left_width_pos hT; positivity
    exact div_nonpos_iff.mpr (Or.inr ⟨hnum, le_of_lt hden⟩)
  · rw [pseudo_planck_right hT hw]
    apply mul_le_of_le_one_left hsc
    rw [Real.exp_le_one_iff]
    have hden : (0:ℝ) < 2 * right_width T ^ 2 := by
      have := right_width_pos hT; positivity
    exact div_nonpos_iff.mpr (Or.inr ⟨hnum, le_of_lt hden⟩)

lemma pseudo_planck_at_peak {T : ℝ} (hT : 0 < T) :
    pseudo_planck (peak_nm T) T = (T / 1000) ^ 4 := by
  rw [pseudo_planck_left hT le_rfl]
  simp

/-- Wavelength (nm) of the peak as worded in the spec: Wien's constant
divided by `T`, converted to nanometres (`2.898e-3 / T * 1e9`), with no
epsilon in the denominator.  Used to compare the code's `peak_nm` with the
spec's formula. -/
noncomputable def wien_peak_spec (T : ℝ) : ℝ := 2.898e-3 / T * 1e9

/-- C2: for every `T > 0` the curve of `pseudo_planck` attains its maximum
at `peak_nm T`, and `peak_nm T` equals the spec's `2.898e-3 / T * 1e9`
within numerical tolerance (the gap, caused by the `+ EPSILON` guard, is at
most `2.898e-3 / T ^ 2` nanometres); concretely the peak for `T = 5800` is
within 1 nm of 500 nm and the peak for `T = 3000` is within 1 nm of
966 nm. -/
theorem pseudo_planck_wien_law :
    (∀ T : ℝ, 0 < T →
      (∀ w : ℝ, pseudo_planck w T ≤ pseudo_planck (peak_nm T) T) ∧
      |peak_nm T - wien_peak_spec T| ≤ 2.898e-3 / T ^ 2) ∧
    |peak_nm 5800 - 500| < 1 ∧ |peak_nm 3000 - 966| < 1 := by
  refine ⟨fun T hT => ⟨fun w => ?_, ?_⟩, ?_, ?_⟩
  · rw [pseudo_planck_at_peak hT]
    exact pseudo_planck_le_scale hT
  · have hTe := temp_eps_pos hT
    have h1 : T ≠ 0 := ne_of_gt hT
    have h2 : T + EPSILON ≠ 0 := ne_of_gt hTe
    have key : peak_nm T - wien_peak_spec T = -(2.898e-3 / (T * (T + EPSILON))) := by
      unfold peak_nm wien_peak_spec B_Wien
      rw [EPSILON] at h2 ⊢
      field_simp
      ring
    have hprod : 0 < T * (T + EPSILON) := mul_pos hT hTe
    rw [key, abs_neg, abs_of_pos (div_pos (by norm_num) hprod)]
    rw [div_le_div_iff₀ hprod (by positivity)]
    have he := epsilon_pos
    nlinarith [mul_pos hT he]
  · unfold peak_nm B_Wien EPSILON
    rw [abs_lt]
    norm_num
  · unfold peak_nm B_Wien EPSILON
    rw [abs_lt]
    norm_num

/-- Witness for C2 at `T = 5800`, `w = 400`. -/
theorem pseudo_planck_wien_law_witness :
    pseudo_planck 400 5800 ≤ pseudo_planck (peak_nm 5800) 5800 ∧
      |peak_nm 5800 - wien_peak_spec 5800| ≤ 2.898e-3 / 5800 ^ 2 := by
  have h := pseudo_planck_wien_law
  exact ⟨(h.1 5800 (by norm_num)).1 400, (h.1 5800 (by norm_num)).2⟩

/-- C3: for every `T > 0`, `pseudo_planck` at the peak wavelength attains the
maximum of the curve, and the value there is exactly `(T/1000)^4` (the
Gaussian factor is `1` before the temperature scaling). -/
theorem pseudo_planck_peak_is_max (T : ℝ) (hT : 0 < T) :
    pseudo_planck (peak_nm T) T = (T / 1000) ^ 4 ∧
    ∀ w : ℝ, pseudo_planck w T ≤ pseudo_planck (peak_nm T) T := by
  refine ⟨pseudo_planck_at_peak hT, fun w => ?_⟩
  rw [pseudo_planck_at_peak hT]
  exact pseudo_planck_le_scale hT

/-- Witness for C3 at `T = 2000`, `w = 500`. -/
theorem pseudo_planck_peak_is_max_witness :
    pseudo_planck (peak_nm 2000) 2000 = ((2000:ℝ) / 1000) ^ 4 ∧
      pseudo_planck 500 2000 ≤ pseudo_planck (peak_nm 2000) 2000 := by
  have h := pseudo_planck_peak_is_max 2000 (by norm_num)
  exact ⟨h.1, h.2 500⟩

/-- C4: for every `T > 0` the curve is monotone towards the peak on each
side: non-decreasing left of the peak and non-increasing right of it. -/
theorem pseudo_planck_monotone_sides (T : ℝ) (hT : 0 < T) :
    (∀ l1 l2 : ℝ, l1 ≤ l2 → l2 ≤ peak_nm T →
      pseudo_planck l1 T ≤ pseudo_planck l2 T) ∧
    (∀ l1 l2 : ℝ, peak_nm T ≤ l1 → l1 ≤ l2 →
      pseudo_planck l2 T ≤ pseudo_planck l1 T) := by
  constructor
  · intro l1 l2 h12 h2p
    have h1p : l1 ≤ peak_nm T := le_trans h12 h2p
    rw [pseudo_planck_left hT h1p, pseudo_planck_left hT h2p]
    apply mul_le_mul_of_nonneg_right _ (by positivity)
    apply Real.exp_le_exp.mpr
    have hlw : (0:ℝ) < 2 * left_width T ^ 2 := by
      have := left_width_pos hT; positivity
    rw [div_le_div_iff_of_pos_right hlw, neg_le_neg_iff]
    nlinarith [mul_nonneg (sub_nonneg.mpr h12)
      (by linarith : (0:ℝ) ≤ 2 * peak_nm T - l1 - l2)]
  · intro l1 l2 hp1 h12
    rcases eq_or_lt_of_le hp1 with heq | hlt
    · rw [← heq, pseudo_planck_at_peak hT]
      exact pseudo_planck_le_scale hT
    · have hlt2 : peak_nm T < l2 := lt_of_lt_of_le hlt h12
      rw [pseudo_planck_right hT hlt, pseudo_planck_right hT hlt2]
      apply mul_le_mul_of_nonneg_right _ (by positivity)
      apply Real.exp_le_exp.mpr
      have hrw : (0:ℝ) < 2 * right_width T ^ 2 := by
        have := right_width_pos hT; positivity
      rw [div_le_div_iff_of_pos_right hrw, neg_le_neg_iff]
      nlinarith [mul_nonneg (sub_nonneg.mpr h12)
        (by linarith : (0:ℝ) ≤ l1 + l2 - 2 * peak_nm T)]

/-- Witness for C4 at `T = 2000`: `300 ≤ 400 ≤ peak` on the left and
`peak ≤ 1500 ≤ 1600` on the right (the peak is about 1449 nm). -/
theorem pseudo_planck_monotone_sides_witness :
    pseudo_planck 300 2000 ≤ pseudo_planck 400 2000 ∧
      pseudo_planck 1600 2000 ≤ pseudo_planck 1500 2000 := by
  have h := pseudo_planck_monotone_sides 2000 (by norm_num)
  refine ⟨h.1 300 400 (by norm_num) ?_, h.2 1500 1600 ?_ (by norm_num)⟩
  · unfold peak_nm B_Wien EPSILON
    norm_num
  · unfold peak_nm B_Wien EPSILON
    norm_num

/-- C5: for every `T > 0`, the curve for temperature `2T` evaluated at its
own peak equals `16 = 2^4` times the curve for temperature `T` evaluated at
its own peak. -/
theorem pseudo_planck_doubling (T : ℝ) (hT : 0 < T) :
    pseudo_planck (peak_nm (2 * T)) (2 * T) = 16 * pseudo_planck (peak_nm T) T := by
  rw [pseudo_planck_at_peak hT, pseudo_planck_at_peak (by linarith : (0:ℝ) < 2 * T)]
  ring

/-- Witness for C5 at `T = 1000`. -/
theorem pseudo_planck_doubling_witness :
    pseudo_planck (peak_nm (2 * 1000)) (2 * 1000) =
      16 * pseudo_planck (peak_nm 1000) 1000 :=
  pseudo_planck_doubling 1000 (by norm_num)

/-- C6: for every `T > 0` the two-sided Gaussian is asymmetric, narrower on
the short-wavelength side (`left_width T < right_width T`); hence for every
distance `d > 0` the value at `peak − d` is at most the value at `peak + d`
(the short-wavelength side falls off faster). -/
theorem pseudo_planck_asymmetric (T : ℝ) (hT : 0 < T) :
    left_width T < right_width T ∧
    ∀ d : ℝ, 0 < d →
      pseudo_planck (peak_nm T - d) T ≤ pseudo_planck (peak_nm T + d) T := by
  refine ⟨left_width_lt_right_width hT, fun d hd => ?_⟩
  have hwl : peak_nm T - d ≤ peak_nm T := by linarith
  have hwr : peak_nm T < peak_nm T + d := by linarith
  rw [pseudo_planck_left hT hwl, pseudo_planck_right hT hwr]
  apply mul_le_mul_of_nonneg_right _ (by positivity)
  apply Real.exp_le_exp.mpr
  have hlw := left_width_pos hT
  have hrw := right_width_pos hT
  have hlr := left_width_lt_right_width hT
  have hsq : (peak_nm T - d - peak_nm T) ^ 2 = (peak_nm T + d - peak_nm T) ^ 2 := by
    ring
  rw [hsq, neg_div, neg_div, neg_le_neg_iff]
  exact div_le_div_of_nonneg_left (sq_nonneg _) (by positivity) (by nlinarith)

/-- Witness for C6 at `T = 2000`, `d = 100`. -/
theorem pseudo_planck_asymmetric_witness :
    left_width 2000 < right_width 2000 ∧
      pseudo_planck (peak_nm 2000 - 100) 2000 ≤
        pseudo_planck (peak_nm 2000 + 100) 2000 := by
  have h := pseudo_planck_asymmetric 2000 (by norm_num)
  exact ⟨h.1, h.2 100 (by norm_num)⟩

/-- C7: for every `T > 0` the three divisors inside `pseudo_planck` — the
peak-wavelength divisor `T + EPSILON` and the two Gaussian widths — are
strictly positive, so no division by zero occurs. -/
theorem pseudo_planck_divisors_pos (T : ℝ) (hT : 0 < T) :
    0 < T + EPSILON ∧ 0 < left_width T ∧ 0 < right_width T :=
  ⟨temp_eps_pos hT, left_width_pos hT, right_width_pos hT⟩

/-- Witness for C7 at `T = 3000`. -/
theorem pseudo_planck_divisors_pos_witness :
    0 < (3000:ℝ) + EPSILON ∧ 0 < left_width 3000 ∧ 0 < right_width 3000 :=
  pseudo_planck_divisors_pos 3000 (by norm_num)

lemma pseudo_planck_nonneg (w T : ℝ) : 0 ≤ pseudo_planck w T := by
  unfold pseudo_planck
  split_ifs <;> positivity

/-- C8: for every wavelength input of non-negative numbers and every real
temperature, the output of `pseudo_planck` is non-negative everywhere and
has the same shape as the input (scalar to scalar, list to list of the same
length). -/
theorem pseudo_planck_output_nonneg :
    (∀ w T : ℝ, 0 ≤ w → 0 ≤ pseudo_planck w T) ∧
    (∀ (ws : List ℝ) (T : ℝ), (∀ w ∈ ws, 0 ≤ w) →
      (pseudo_planck_list ws T).length = ws.length ∧
        ∀ x ∈ pseudo_planck_list ws T, 0 ≤ x) := by
  refine ⟨fun w T _ => pseudo_planck_nonneg w T, fun ws T _ => ⟨?_, fun x hx => ?_⟩⟩
  · unfold pseudo_planck_list
    split_ifs <;> simp
  · unfold pseudo_planck_list at hx
    split_ifs at hx with hT
    · simp only [List.mem_map] at hx
      obtain ⟨a, -, ha⟩ := hx
      subst ha
      simp
    · simp only [List.mem_map] at hx
      obtain ⟨a, -, ha⟩ := hx
      subst ha
      split_ifs <;> positivity

/-- Witness for C8 with scalar input `600`, list input `[400, 700]`,
`T = 3000`. -/
theorem pseudo_planck_output_nonneg_witness :
    0 ≤ pseudo_planck 600 3000 ∧
      (pseudo_planck_list [400, 700] 3000).length = 2 := by
  have h := pseudo_planck_output_nonneg
  refine ⟨h.1 600 3000 (by norm_num), ?_⟩
  rw [(h.2 [400, 700] 3000 ?_).1]
  · rfl
  · intro w hw
    simp only [List.mem_cons, List.not_mem_nil, or_false] at hw
    rcases hw with rfl | rfl <;> norm_num

/-- C9: `pseudo_planck` is total and deterministic as embedded (a total pure
function on `ℝ`): its only guard is the non-positive-temperature branch,
which returns `0` rather than signalling an error, and equal inputs give
equal outputs. -/
theorem pseudo_planck_total_deterministic :
    (∀ w T : ℝ, T ≤ 0 → pseudo_planck w T = 0) ∧
    (∀ w1 w2 T1 T2 : ℝ, w1 = w2 → T1 = T2 →
      pseudo_planck w1 T1 = pseudo_planck w2 T2) := by
  refine ⟨fun w T hT => ?_, fun w1 w2 T1 T2 hw hT => by rw [hw, hT]⟩
  unfold pseudo_planck
  rw [if_pos hT]

/-- Witness for C9 at `w = 400`, `T = 0` and `T = 1000`. -/
theorem pseudo_planck_total_deterministic_witness :
    pseudo_planck 400 0 = 0 ∧
      pseudo_planck 400 1000 = pseudo_planck 400 1000 := by
  have h := pseudo_planck_total_deterministic
  exact ⟨h.1 400 0 (by norm_num), h.2 400 400 1000 1000 rfl rfl⟩

end Blackbody

namespace Problems

/-- RGB colour with real components, the shallow embedding of a manim
colour value; the named constants below carry manim's hex channel values
scaled to `[0, 1]`. -/
structure MColor where
  r : ℝ
  g : ℝ
  b : ℝ

/-- manim `BLACK` (#000000). -/
def BLACK : MColor := ⟨0, 0, 0⟩

/-- manim `RED_E` (#CF5044). -/
noncomputable def RED_E : MColor := ⟨0xCF / 255, 0x50 / 255, 0x44 / 255⟩

/-- manim `RED_D` (#E65A4C). -/
noncomputable def RED_D : MColor := ⟨0xE6 / 255, 0x5A / 255, 0x4C / 255⟩

/-- manim `ORANGE` (#FF862F). -/
noncomputable def ORANGE : MColor := ⟨0xFF / 255, 0x86 / 255, 0x2F / 255⟩

/-- manim `YELLOW_E` (#E8C11C). -/
noncomputable def YELLOW_E : MColor := ⟨0xE8 / 255, 0xC1 / 255, 0x1C / 255⟩

/-- manim `YELLOW_D` (#F4D345). -/
noncomputable def YELLOW_D : MColor := ⟨0xF4 / 255, 0xD3 / 255, 0x45 / 255⟩

/-- manim `GREEN_D` (#699C52). -/
noncomputable def GREEN_D : MColor := ⟨0x69 / 255, 0x9C / 255, 0x52 / 255⟩

/-- manim `GREEN_C` (#83C167). -/
noncomputable def GREEN_C : MColor := ⟨0x83 / 255, 0xC1 / 255, 0x67 / 255⟩

/-- manim's `interpolate_color`: componentwise linear interpolation
`c1 + (c2 - c1) * alpha` of the channel values. -/
noncomputable def interpolate_color (c1 c2 : MColor) (alpha : ℝ) : MColor :=
  ⟨c1.r + (c2.r - c1.r) * alpha,
   c1.g + (c2.g - c1.g) * alpha,
   c1.b + (c2.b - c1.b) * alpha⟩

/-- The `BULB_GLOW_COLORS` table from `problems.py` (lines 10-15). -/
noncomputable def BULB_GLOW_COLORS : List (ℝ × MColor) :=
  [(0, BLACK), (1000, RED_E), (2000, RED_D), (3000, ORANGE),
   (4000, YELLOW_E), (4800, YELLOW_D),
   (5000, interpolate_color YELLOW_D GREEN_D 0.5),
   (5100, interpolate_color YELLOW_D GREEN_D 0.7), (5270, GREEN_C)]

/-- The `for` loop of `get_bulb_color`: scan adjacent pairs of the table;
the first bracket with `temp_values[i] <= temperature < temp_values[i+1]`
returns the linear interpolation of the two colours at ratio
`(temperature - temp_values[i]) / (temp_values[i+1] - temp_values[i])`;
falling through returns the default (the source's final
`return color_values[-1]`). -/
noncomputable def find_segment : List (ℝ × MColor) → ℝ → MColor → MColor
  | (t1, c1) :: (t2, c2) :: rest, temperature, dflt =>
      if t1 ≤ temperature ∧ temperature < t2 then
        interpolate_color c1 c2 ((temperature - t1) / (t2 - t1))
      else find_segment ((t2, c2) :: rest) temperature dflt
  | _, _, dflt => dflt

/-- `temp_values = [t for t, c in BULB_GLOW_COLORS]` from `get_bulb_color`. -/
noncomputable def temp_values : List ℝ := BULB_GLOW_COLORS.map Prod.fst

/-- `color_values = [c for t, c in BULB_GLOW_COLORS]` from `get_bulb_color`. -/
noncomputable def color_values : List MColor := BULB_GLOW_COLORS.map Prod.snd

/-- `get_bulb_color` from `problems.py` (lines 17-26): clamp below the first
breakpoint to the first colour, clamp at or above the last breakpoint to the
last colour, otherwise scan for the bracketing segment and interpolate. -/
noncomputable def get_bulb_color (temperature : ℝ) : MColor :=
  if temperature ≤ temp_values.headD 0 then color_values.headD BLACK
  else if temp_values.getLastD 0 ≤ temperature then color_values.getLastD BLACK
  else find_segment BULB_GLOW_COLORS temperature (color_values.getLastD BLACK)

lemma temp_values_headD : temp_values.headD 0 = 0 := rfl

lemma temp_values_getLastD : temp_values.getLastD 0 = 5270 := rfl

lemma color_values_headD : color_values.headD BLACK = BLACK := rfl

lemma color_values_getLastD : color_values.getLastD BLACK = GREEN_C := rfl

lemma find_segment_cons_pos {t1 t2 temperature : ℝ} {c1 c2 : MColor}
    {rest : List (ℝ × MColor)} {dflt : MColor}
    (h1 : t1 ≤ temperature) (h2 : temperature < t2) :
    find_segment ((t1, c1) :: (t2, c2) :: rest) temperature dflt =
      interpolate_color c1 c2 ((temperature - t1) / (t2 - t1)) := by
  simp only [find_segment]
  rw [if_pos ⟨h1, h2⟩]

lemma find_segment_skip {t1 t2 temperature : ℝ} {c1 c2 : MColor}
    {rest : List (ℝ × MColor)} {dflt : MColor} (h : t2 ≤ temperature) :
    find_segment ((t1, c1) :: (t2, c2) :: rest) temperature dflt =
      find_segment ((t2, c2) :: rest) temperature dflt := by
  simp only [find_segment]
  rw [if_neg (fun hc => absurd hc.2 (not_lt.mpr h))]

lemma get_bulb_color_low {t : ℝ} (h : t ≤ 0) : get_bulb_color t = BLACK := by
  unfold get_bulb_color
  rw [temp_values_headD, color_values_headD, if_pos h]

lemma get_bulb_color_high {t : ℝ} (h : 5270 ≤ t) : get_bulb_color t = GREEN_C := by
  unfold get_bulb_color
  rw [temp_values_headD, temp_values_getLastD, color_values_getLastD,
    if_neg (by linarith : ¬t ≤ (0:ℝ)), if_pos h]

lemma get_bulb_color_mid {t : ℝ} (h0 : 0 < t) (h5 : t < 5270) :
    get_bulb_color t = find_segment BULB_GLOW_COLORS t GREEN_C := by
  unfold get_bulb_color
  rw [temp_values_headD, temp_values_getLastD, color_values_getLastD,
    if_neg (by linarith : ¬t ≤ (0:ℝ)), if_neg (by linarith : ¬(5270:ℝ) ≤ t)]

/-- C10: `get_bulb_color` is total over all real temperatures and clamps at
the ends of its colour table: every `t ≤ 0` gives the first table colour
`BLACK`, every `t ≥ 5270` gives the last table colour `GREEN_C`, and every
`t` strictly between two adjacent breakpoints gives the linear interpolation
of the two bracketing colours at ratio `(t - lower) / (upper - lower)`. -/
theorem get_bulb_color_spec :
    (∀ t : ℝ, t ≤ 0 → get_bulb_color t = BLACK) ∧
    (∀ t : ℝ, 5270 ≤ t → get_bulb_color t = GREEN_C) ∧
    (∀ t : ℝ, 0 < t → t < 1000 →
      get_bulb_color t = interpolate_color BLACK RED_E ((t - 0) / (1000 - 0))) ∧
    (∀ t : ℝ, 1000 < t → t < 2000 →
      get_bulb_color t = interpolate_color RED_E RED_D ((t - 1000) / (2000 - 1000))) ∧
    (∀ t : ℝ, 2000 < t → t < 3000 →
      get_bulb_color t = interpolate_color RED_D ORANGE ((t - 2000) / (3000 - 2000))) ∧
    (∀ t : ℝ, 3000 < t → t < 4000 →
      get_bulb_color t = interpolate_color ORANGE YELLOW_E ((t - 3000) / (4000 - 3000))) ∧
    (∀ t : ℝ, 4000 < t → t < 4800 →
      get_bulb_color t = interpolate_color YELLOW_E YELLOW_D ((t - 4000) / (4800 - 4000))) ∧
    (∀ t : ℝ, 4800 < t → t < 5000 →
      get_bulb_color t = interpolate_color YELLOW_D
        (interpolate_color YELLOW_D GREEN_D 0.5) ((t - 4800) / (5000 - 4800))) ∧
    (∀ t : ℝ, 5000 < t → t < 5100 →
      get_bulb_color t = interpolate_color (interpolate_color YELLOW_D GREEN_D 0.5)
        (interpolate_color YELLOW_D GREEN_D 0.7) ((t - 5000) / (5100 - 5000))) ∧
    (∀ t : ℝ, 5100 < t → t < 5270 →
      get_bulb_color t = interpolate_color (interpolate_color YELLOW_D GREEN_D 0.7)
        GREEN_C ((t - 5100) / (5270 - 5100))) := by
  refine ⟨fun t h => get_bulb_color_low h, fun t h => get_bulb_color_high h,
    ?_, ?_, ?_, ?_, ?_, ?_, ?_, ?_⟩
  · intro t h1 h2
    rw [get_bulb_color_mid h1 (by linarith), BULB_GLOW_COLORS,
      find_segment_cons_pos (by linarith) (by linarith)]
  · intro t h1 h2
    rw [get_bulb_color_mid (by linarith) (by linarith), BULB_GLOW_COLORS,
      find_segment_skip (by linarith),
      find_segment_cons_pos (by linarith) (by linarith)]
  · intro t h1 h2
    rw [get_bulb_color_mid (by linarith) (by linarith), BULB_GLOW_COLORS,
      find_segment_skip (by linarith), find_segment_skip (by linarith),
      find_segment_cons_pos (by linarith) (by linarith)]
  · intro t h1 h2
    rw [get_bulb_color_mid (by linarith) (by linarith), BULB_GLOW_COLORS,
      find_segment_skip (by linarith), find_segment_skip (by linarith),
      find_segment_skip (by linarith),
      find_segment_cons_pos (by linarith) (by linarith)]
  · intro t h1 h2
    rw [get_bulb_color_mid (by linarith) (by linarith), BULB_GLOW_COLORS,
      find_segment_skip (by linarith), find_segment_skip (by linarith),
      find_segment_skip (by linarith), find_segment_skip (by linarith),
      find_segment_cons_pos (by linarith) (by linarith)]
  · intro t h1 h2
    rw [get_bulb_color_mid (by linarith) (by linarith), BULB_GLOW_COLORS,
      find_segment_skip (by linarith), find_segment_skip (by linarith),
      find_segment_skip (by linarith), find_segment_skip (by linarith),
      find_segment_skip (by linarith),
      find_segment_cons_pos (by linarith) (by linarith)]
  · intro t h1 h2
    rw [get_bulb_color_mid (by linarith) (by linarith), BULB_GLOW_COLORS,
      find_segment_skip (by linarith), find_segment_skip (by linarith),
      find_segment_skip (by linarith), find_segment_skip (by linarith),
      find_segment_skip (by linarith), find_segment_skip (by linarith),
      find_segment_cons_pos (by linarith) (by linarith)]
  · intro t h1 h2
    rw [get_bulb_color_mid (by linarith) (by linarith), BULB_GLOW_COLORS,
      find_segment_skip (by linarith), find_segment_skip (by linarith),
      find_segment_skip (by linarith), find_segment_skip (by linarith),
      find_segment_skip (by linarith), find_segment_skip (by linarith),
      find_segment_skip (by linarith),
      find_segment_cons_pos (by linarith) (by linarith)]

/-- Witness for C10 at `t = -100` (clamp low), `t = 6000` (clamp high) and
`t = 500` (interior interpolation). -/
theorem get_bulb_color_spec_witness :
    get_bulb_color (-100) = BLACK ∧ get_bulb_color 6000 = GREEN_C ∧
      get_bulb_color 500 = interpolate_color BLACK RED_E ((500 - 0) / (1000 - 0)) := by
  have h := get_bulb_color_spec
  exact ⟨h.1 (-100) (by norm_num), h.2.1 6000 (by norm_num),
    h.2.2.1 500 (by norm_num) (by norm_num)⟩

end Problems
